import Mathlib

/-!
Verification of the deletion orchestrator of AWSweepByTag.

The embedding follows the source files:
  * `src/awsweepbytag/get_and_order.py`  — `order_resources_for_deletion`
  * `src/awsweepbytag/main_delete.py`    — `delete_resource`, `retry_failed_deletions`
  * `src/awsweepbytag/delete_resource_map.py` — `DELETE_FUNCTIONS` (its key structure)
  * `delete_functions.py`                — `disable_cloudfront_distribution`

Python dictionaries describing a resource are modelled by the `Resource`
structure; the per-resource AWS handlers perform network I/O, so dispatch is
parameterised by a handler-behaviour function, while everything the
orchestrator itself does (registry lookup, error classification, ordering,
the retry loop) is embedded concretely.
-/

namespace AWSweepByTag

/-- A resource descriptor, as produced by `parse_resource_by_type` /
`get_other_resources`: a Python dict with keys `service`, `resource_type`,
`region`, and either `arn` or `resource_id` (each possibly absent). -/
structure Resource where
  service : String
  resource_type : String
  arn : Option String
  resource_id : Option String
  region : String
deriving DecidableEq, Repr

/-- Python `a or b` on two optional strings (an absent or empty string is
falsy): used for `resource.get("arn") or resource.get("resource_id")`. -/
def pyOr (a b : Option String) : Option String :=
  match a with
  | some s => if s = "" then b else some s
  | none => b

/-- Python `sub in s` substring containment on strings: for a non-empty
`sub`, splitting `s` on `sub` yields more than one piece exactly when `sub`
occurs in `s`. -/
def strContains (s sub : String) : Bool :=
  (s.splitOn sub).length > 1

/-- The tuple of `ec2` resource types forming the networking bucket in
`order_resources_for_deletion` (get_and_order.py lines 205-216). -/
def netTypes : List String :=
  ["eip", "instance", "internetgateway", "natgateway", "routetable",
   "subnet", "securitygroup", "transitgatewayattachment", "vpcendpoint", "vpc"]

/-- Membership test for `ordered_networking_resources`
(get_and_order.py lines 199-218). -/
def netPred (r : Resource) : Bool :=
  r.service == "ec2" && netTypes.contains r.resource_type

/-- Membership test for `ordered_non_networking_resources`
(get_and_order.py lines 221-231). -/
def nonNetPred (r : Resource) : Bool :=
  ["elasticloadbalancingv2", "autoscaling"].contains r.service

/-- The guard of the application-autoscaling filter
(get_and_order.py line 192): `r.get("service") != "applicationautoscaling"`. -/
def notAAS (r : Resource) : Bool :=
  !(r.service == "applicationautoscaling")

/-- `order_resources_for_deletion` (get_and_order.py lines 168-263),
embedded clause by clause: the application-autoscaling filter, the four
bucket comprehensions (Python `r not in bucket` is value membership,
modelled with `decide (r ∈ bucket)`), then the fixed emit sequence. -/
def orderResourcesForDeletion (resources0 : List Resource) : List Resource :=
  let resources := resources0.filter notAAS
  let orderedNetworking := resources.filter netPred
  let orderedNonNetworking := resources.filter nonNetPred
  let otherResources := resources.filter (fun r =>
    r.resource_id.isSome && !(decide (r ∈ orderedNetworking)) && !(decide (r ∈ orderedNonNetworking)))
  let nonOrdered := resources.filter (fun r =>
    !(decide (r ∈ orderedNetworking)) && !(decide (r ∈ orderedNonNetworking)) &&
    !(decide (r ∈ otherResources)))
  nonOrdered ++ otherResources
    ++ orderedNonNetworking.filter (fun r => r.service == "autoscaling")
    ++ orderedNonNetworking.filter (fun r => strContains r.resource_type "loadbalancer")
    ++ orderedNonNetworking.filter (fun r => strContains r.resource_type "listener")
    ++ orderedNonNetworking.filter (fun r => strContains r.resource_type "targetgroup")
    ++ orderedNetworking.filter (fun r => r.resource_type == "instance")
    ++ orderedNetworking.filter (fun r => r.resource_type == "vpcendpoint")
    ++ orderedNetworking.filter (fun r => r.resource_type == "natgateway")
    ++ orderedNetworking.filter (fun r => r.resource_type == "subnet")
    ++ orderedNetworking.filter (fun r => r.resource_type == "eip")
    ++ orderedNetworking.filter (fun r => r.resource_type == "internetgateway")
    ++ orderedNetworking.filter (fun r => r.resource_type == "routetable")
    ++ orderedNetworking.filter (fun r => r.resource_type == "securitygroup")
    ++ orderedNetworking.filter (fun r => r.resource_type == "vpc")

/-! Characterisation of the emitted segments: after eliminating the Python
value-membership tests, every segment of the output is a `List.filter` of the
input list, so each segment preserves the input's relative order. -/

/-- Predicate selecting the `non_ordered_resources` segment: resources that
end up in no special bucket. -/
def pNonOrdered (r : Resource) : Bool :=
  (!r.resource_id.isSome && !netPred r && !nonNetPred r) && notAAS r

/-- Predicate selecting the `other_resources` segment: carries a
`resource_id` and belongs to neither ordered bucket. -/
def pOther (r : Resource) : Bool :=
  (r.resource_id.isSome && !netPred r && !nonNetPred r) && notAAS r

/-- Predicate selecting the autoscaling sub-segment of the
non-networking ordered bucket. -/
def pAutoscaling (r : Resource) : Bool :=
  (r.service == "autoscaling") && (nonNetPred r && notAAS r)

/-- Predicate selecting the load-balancer sub-segment of the
non-networking ordered bucket. -/
def pLoadBalancer (r : Resource) : Bool :=
  strContains r.resource_type "loadbalancer" && (nonNetPred r && notAAS r)

/-- Predicate selecting the listener sub-segment of the
non-networking ordered bucket. -/
def pListenerRes (r : Resource) : Bool :=
  strContains r.resource_type "listener" && (nonNetPred r && notAAS r)

/-- Predicate selecting the target-group sub-segment of the
non-networking ordered bucket. -/
def pTargetGroup (r : Resource) : Bool :=
  strContains r.resource_type "targetgroup" && (nonNetPred r && notAAS r)

/-- The emitted sub-segment of the networking bucket for one resource type:
a filter of the input list, hence preserving input order among its members. -/
def netSegment (rs : List Resource) (t : String) : List Resource :=
  rs.filter (fun r => (r.resource_type == t) && (netPred r && notAAS r))

/-- The final emit position of `order_resources_for_deletion`: a networking
bucket member whose type is the network container (`ec2` / `vpc`). -/
def isNetVpc (r : Resource) : Bool :=
  (r.service == "ec2") && (r.resource_type == "vpc")

/-!  Dispatch (`main_delete.py`).  The per-resource handlers of
`delete_functions.py` perform AWS API calls, so a handler's behaviour is a
parameter: it either returns a list of leftover sub-resources or raises an
exception.  Python distinguishes `botocore.exceptions.ClientError` (carrying
an error code) from every other exception class; `delete_resource` only
catches the former. -/

/-- An exception, as seen at the dispatch boundary: a botocore
`ClientError` carrying its error code, or an exception of any other class. -/
inductive Exc where
  | clientError (code : String)
  | otherError (name : String)
deriving DecidableEq, Repr

/-- The behaviour of one call to a registered delete handler. -/
inductive HandlerOutcome where
  | returns (rs : List Resource)
  | throws (e : Exc)
deriving DecidableEq, Repr

/-- The observable steps `delete_resource` takes, in order. -/
inductive Action where
  | handlerCall (service rtype : String) (arg : Option String) (region : String)
  | disableCall (arg : Option String)
  | logNotFound (arg : Option String)
  | logRetry (arg : Option String) (code : String)
  | logUnknownRetry (arg : Option String)
  | logManual (service rtype : String)
deriving DecidableEq, Repr

/-- The key structure of the `DELETE_FUNCTIONS` registry
(delete_resource_map.py lines 6-76): service, then the resource types that
service maps to a delete function (commented-out entries excluded). -/
def DELETE_FUNCTIONS_KEYS : List (String × List String) :=
  [("apigateway", ["restapi"]),
   ("apigatewayv2", ["api", "vpclink"]),
   ("autoscaling", ["autoscalinggroup"]),
   ("certificatemanager", ["certificate"]),
   ("cloudfront", ["distribution"]),
   ("dynamodb", ["table"]),
   ("ec2", ["ami", "eip", "instance", "internetgateway", "launchtemplate",
            "natgateway", "routetable", "securitygroup", "snapshot", "subnet",
            "transitgatewayattachment", "vpc", "vpcendpoint", "vpcpeering"]),
   ("elasticloadbalancingv2", ["loadbalancer", "listener", "targetgroup"]),
   ("kms", ["key"]),
   ("lambda", ["function"]),
   ("rds", ["dbinstance"]),
   ("route53", ["hostedzone"]),
   ("s3", ["bucket"]),
   ("secretsmanager", ["secret"]),
   ("sns", ["topic"]),
   ("sqs", ["queue"])]

/-- `service in DELETE_FUNCTIONS and resource_type in DELETE_FUNCTIONS[service]`
(main_delete.py line 65). -/
def registryHasEntry (service rtype : String) : Bool :=
  match DELETE_FUNCTIONS_KEYS.find? (fun p => p.1 == service) with
  | some p => p.2.contains rtype
  | none => false

/-- The error codes `delete_resource` treats as already-gone
(main_delete.py lines 77-81). -/
def notFoundCodes : List String :=
  ["NotFoundException", "NoSuchEntity", "ResourceNotFoundException"]

/-- The error codes `delete_resource` treats as known-retryable
(main_delete.py lines 86-91). -/
def retryableCodes : List String :=
  ["DependencyViolation", "TooManyRequestsException", "ThrottlingException",
   "ServiceUnavailableException"]

/-- `delete_resource` (main_delete.py lines 15-106).  `handler` gives the
behaviour of the registry entry for (service, resource type) when called on
(arn, region); `disable` gives the behaviour of
`disable_cloudfront_distribution`.  Returns the action trace together with
the Python result: `Except.ok` is a normal return (`None` or a list),
`Except.error` an uncaught exception propagating out. -/
def deleteResource (handler : String → String → Option String → String → HandlerOutcome)
    (disable : Option String → Except Exc Bool) (r : Resource) :
    List Action × Except Exc (Option (List Resource)) :=
  let service := r.service
  let resource_type := r.resource_type
  let arn := pyOr r.arn r.resource_id
  let region := r.region
  if resource_type == "distribution" then
    match disable arn with
    | .ok true => ([.disableCall arn], .ok (some [r]))
    | .ok false => ([.disableCall arn], .ok none)
    | .error e => ([.disableCall arn], .error e)
  else if registryHasEntry service resource_type then
    match handler service resource_type arn region with
    | .returns rs =>
        if rs.isEmpty then ([.handlerCall service resource_type arn region], .ok none)
        else ([.handlerCall service resource_type arn region], .ok (some rs))
    | .throws (.clientError code) =>
        if notFoundCodes.contains code then
          ([.handlerCall service resource_type arn region, .logNotFound arn], .ok none)
        else if retryableCodes.contains code then
          ([.handlerCall service resource_type arn region, .logRetry arn code],
           .ok (some [r]))
        else
          ([.handlerCall service resource_type arn region, .logUnknownRetry arn],
           .ok (some [r]))
    | .throws e => ([.handlerCall service resource_type arn region], .error e)
  else
    ([.logManual service resource_type], .ok none)

/-!  The CloudFront async-teardown path (`delete_functions.py`,
`disable_cloudfront_distribution`). -/

/-- The state of a CloudFront distribution as returned by
`get_distribution`: its `Status` string and the `Enabled` flag of its
config. -/
structure CFDistribution where
  status : String
  enabled : Bool
deriving DecidableEq, Repr

/-- The CloudFront API calls `disable_cloudfront_distribution` can issue
after the initial `get_distribution`. -/
inductive CFAction where
  | getDistribution (id : String)
  | updateDistribution (id : String) (enabled : Bool)
  | deleteDistribution (id : String)
deriving DecidableEq, Repr

/-- The behaviour of `client.delete_distribution` when it is invoked:
an HTTP status code, the `DistributionNotDisabled` exception, or any other
exception. -/
inductive CFDeleteOutcome where
  | http (status : Nat)
  | raiseNotDisabled
  | raiseOther (name : String)
deriving DecidableEq, Repr

/-- `arn.split('/')[-1]` — the distribution id extracted from the ARN. -/
def distributionId (arn : String) : String :=
  (arn.splitOn "/").getLastD ""

/-- `disable_cloudfront_distribution` (delete_functions.py lines 543-603):
if the distribution is `Deployed` and enabled, issue only the
`update_distribution` call that sets `Enabled = False` and return
`retry = True`; otherwise attempt `delete_distribution`, returning
`retry = False` on a 2xx response, `retry = True` when the delete raises
(`DistributionNotDisabled` or any other exception).  On a non-2xx response
without an exception the Python `retry` variable was never assigned, so
`return retry` raises `UnboundLocalError`. -/
def disableCloudfrontDistribution (dist : CFDistribution) (del : CFDeleteOutcome)
    (arn : String) : List CFAction × Except Exc Bool :=
  let id := distributionId arn
  if (dist.status == "Deployed") && dist.enabled then
    ([.getDistribution id, .updateDistribution id false], .ok true)
  else
    match del with
    | .http s =>
        if 200 ≤ s ∧ s < 300 then
          ([.getDistribution id, .deleteDistribution id], .ok false)
        else
          ([.getDistribution id, .deleteDistribution id],
           .error (.otherError "UnboundLocalError"))
    | .raiseNotDisabled => ([.getDistribution id, .deleteDistribution id], .ok true)
    | .raiseOther _ => ([.getDistribution id, .deleteDistribution id], .ok true)

/-!  The retry controller (`retry_failed_deletions`, main_delete.py lines
110-189).  The dispatch a retry round performs on one descriptor is a
parameter `f`, indexed by the attempt number; the CloudFront
wait-then-delete step (whose failures are caught by a bare `except` and
folded back into the ordinary set) is abstracted by `cfOk`. -/

/-- One retry round (the `for resource in other_resources` body):
accumulates `new_failed_resources`.  A returned list is extended in; a
`ClientError` whose text contains `DependencyViolation` re-enqueues the
descriptor, any other `ClientError` drops it with a log line, and a
non-`ClientError` exception propagates. -/
def retryRound (f : Resource → Except Exc (Option (List Resource))) :
    List Resource → List Resource → Except Exc (List Resource)
  | [], acc => .ok acc
  | r :: rest, acc =>
    match f r with
    | .ok (some result) => retryRound f rest (acc ++ result)
    | .ok none => retryRound f rest acc
    | .error (.clientError code) =>
        if strContains code "DependencyViolation" then retryRound f rest (acc ++ [r])
        else retryRound f rest acc
    | .error e => .error e

/-- The `for attempt in range(1, max_retries + 1)` loop.  Arguments:
rounds remaining, rounds already run, seconds already slept, current failure
set.  Returns (rounds run, seconds slept, final failure report); the report
is empty when some round cleared the set. -/
def retryAttempts (f : Nat → Resource → Except Exc (Option (List Resource)))
    (waitTime : Nat) :
    Nat → Nat → Nat → List Resource → Except Exc (Nat × Nat × List Resource)
  | 0, rounds, slept, cur => .ok (rounds, slept, cur)
  | remaining + 1, rounds, slept, cur =>
    match retryRound (f (rounds + 1)) cur [] with
    | .error e => .error e
    | .ok newFailed =>
        if newFailed.isEmpty then .ok (rounds + 1, slept, [])
        else retryAttempts f waitTime remaining (rounds + 1) (slept + waitTime) newFailed

/-- `retry_failed_deletions`: split off the CloudFront distributions, fold
the ones whose wait-then-delete step failed back into the ordinary set,
return early if that set is empty, else run the bounded retry loop.
Defaults in the source: `max_retries = 6`, `wait_time = 10`. -/
def retryFailedDeletions (cfOk : Resource → Bool)
    (f : Nat → Resource → Except Exc (Option (List Resource)))
    (failed : List Resource) (maxRetries waitTime : Nat) :
    Except Exc (Nat × Nat × List Resource) :=
  let cloudfront := failed.filter (fun r => r.resource_type == "distribution")
  let others := failed.filter (fun r => !(r.resource_type == "distribution"))
  let others2 := others ++ cloudfront.filter (fun r => !(cfOk r))
  if others2.isEmpty then .ok (0, 0, [])
  else retryAttempts f waitTime maxRetries 0 0 others2

/-!  Proofs. -/

lemma decide_mem_filter {l : List Resource} {r : Resource} (hr : r ∈ l)
    (p : Resource → Bool) : decide (r ∈ l.filter p) = p r := by
  cases hp : p r
  · simp [List.mem_filter, hp]
  · simp [List.mem_filter, hr, hp]

lemma other_filter_eq (rs : List Resource) :
    List.filter (fun a =>
        a.resource_id.isSome &&
          !decide (a ∈ List.filter (fun a => netPred a && notAAS a) rs) &&
          !decide (a ∈ List.filter (fun a => nonNetPred a && notAAS a) rs) &&
          notAAS a) rs
      = rs.filter pOther := by
  refine List.filter_congr fun r hr => ?_
  simp only [decide_mem_filter hr, pOther]
  cases h1 : netPred r <;> cases h2 : nonNetPred r <;>
    cases h3 : notAAS r <;> cases h4 : r.resource_id.isSome <;> rfl

lemma nonOrdered_filter_eq (rs : List Resource) :
    List.filter (fun a =>
        !decide (a ∈ List.filter (fun a => netPred a && notAAS a) rs) &&
          !decide (a ∈ List.filter (fun a => nonNetPred a && notAAS a) rs) &&
          !decide (a ∈ rs.filter pOther) &&
          notAAS a) rs
      = rs.filter pNonOrdered := by
  refine List.filter_congr fun r hr => ?_
  simp only [decide_mem_filter hr, pOther, pNonOrdered]
  cases h1 : netPred r <;> cases h2 : nonNetPred r <;>
    cases h3 : notAAS r <;> cases h4 : r.resource_id.isSome <;> rfl

/-- The output of `order_resources_for_deletion` is the concatenation of
fifteen filters of the input list, in the source's fixed emit order. -/
lemma orderResources_decomposition (rs : List Resource) :
    orderResourcesForDeletion rs =
      rs.filter pNonOrdered ++ rs.filter pOther
      ++ rs.filter pAutoscaling ++ rs.filter pLoadBalancer
      ++ rs.filter pListenerRes ++ rs.filter pTargetGroup
      ++ netSegment rs "instance" ++ netSegment rs "vpcendpoint"
      ++ netSegment rs "natgateway" ++ netSegment rs "subnet"
      ++ netSegment rs "eip" ++ netSegment rs "internetgateway"
      ++ netSegment rs "routetable" ++ netSegment rs "securitygroup"
      ++ netSegment rs "vpc" := by
  simp only [orderResourcesForDeletion, List.filter_filter]
  rw [other_filter_eq, nonOrdered_filter_eq]
  rfl

lemma netPred_of_isNetVpc {x : Resource} (h : isNetVpc x = true) :
    netPred x = true := by
  simp only [isNetVpc, Bool.and_eq_true, beq_iff_eq] at h
  simp [netPred, netTypes, h.1, h.2]

lemma isNetVpc_false_of_netPred_false {x : Resource} (h : netPred x = false) :
    isNetVpc x = false := by
  cases hv : isNetVpc x
  · rfl
  · rw [netPred_of_isNetVpc hv] at h
    cases h

lemma isNetVpc_false_of_nonNet {x : Resource} (h : nonNetPred x = true) :
    isNetVpc x = false := by
  have h2 : x.service = "elasticloadbalancingv2" ∨ x.service = "autoscaling" := by
    simpa [nonNetPred] using h
  rcases h2 with h2 | h2 <;> simp [isNetVpc, h2]

lemma isNetVpc_false_of_type {x : Resource} {t : String}
    (h : (x.resource_type == t) = true) (hne : (t == "vpc") = false) :
    isNetVpc x = false := by
  have ht : x.resource_type = t := by simpa using h
  simp only [isNetVpc, ht, hne, Bool.and_false]

/-- Every element of the fourteen segments emitted before the `vpc` segment
fails `isNetVpc`. -/
lemma isNetVpc_false_on_init (rs : List Resource) :
    ∀ x ∈ rs.filter pNonOrdered ++ rs.filter pOther
      ++ rs.filter pAutoscaling ++ rs.filter pLoadBalancer
      ++ rs.filter pListenerRes ++ rs.filter pTargetGroup
      ++ netSegment rs "instance" ++ netSegment rs "vpcendpoint"
      ++ netSegment rs "natgateway" ++ netSegment rs "subnet"
      ++ netSegment rs "eip" ++ netSegment rs "internetgateway"
      ++ netSegment rs "routetable" ++ netSegment rs "securitygroup",
      isNetVpc x = false := by
  intro x hx
  simp only [List.mem_append, netSegment, List.mem_filter] at hx
  rcases hx with ((((((((((((⟨h | h⟩ | h) | h) | h) | h) | h) | h) | h) | h) | h) | h) | h) | h)
  all_goals first
  | · rcases h with ⟨-, hp⟩
      simp only [pNonOrdered, pOther, Bool.and_eq_true, Bool.not_eq_true'] at hp
      exact isNetVpc_false_of_netPred_false hp.1.1.2
  | · rcases h with ⟨-, hp⟩
      simp only [pAutoscaling, pLoadBalancer, pListenerRes, pTargetGroup,
        Bool.and_eq_true] at hp
      exact isNetVpc_false_of_nonNet hp.2.1
  | · rcases h with ⟨-, hp⟩
      rw [Bool.and_eq_true] at hp
      exact isNetVpc_false_of_type hp.1 (by decide)

/-- Every element of the final `vpc` segment satisfies `isNetVpc`. -/
lemma isNetVpc_true_on_vpcSegment (rs : List Resource) :
    ∀ x ∈ netSegment rs "vpc", isNetVpc x = true := by
  intro x hx
  simp only [netSegment, List.mem_filter, Bool.and_eq_true] at hx
  have hsvc : (x.service == "ec2") = true := by
    have := hx.2.2.1
    simp only [netPred, Bool.and_eq_true] at this
    exact this.1
  simp only [isNetVpc, hsvc, hx.2.1, Bool.and_self]

/-- If `l = A ++ B`, `p` fails on all of `A` and holds on all of `B`, then
any position where `p` fails comes strictly before any position where `p`
holds. -/
lemma pos_lt_of_partition {l A B : List Resource} (hl : l = A ++ B)
    {p : Resource → Bool} (hA : ∀ x ∈ A, p x = false) (hB : ∀ x ∈ B, p x = true)
    {i j : Nat} (hi : i < l.length) (hj : j < l.length)
    (hpi : p (l.get ⟨i, hi⟩) = false) (hpj : p (l.get ⟨j, hj⟩) = true) :
    i < j := by
  subst hl
  rw [List.get_eq_getElem] at hpi hpj
  have hiA : i < A.length := by
    by_contra hcon
    push_neg at hcon
    rw [List.getElem_append_right hcon] at hpi
    rw [hB _ (List.getElem_mem _)] at hpi
    cases hpi
  have hjB : A.length ≤ j := by
    by_contra hcon
    push_neg at hcon
    rw [List.getElem_append_left hcon] at hpj
    rw [hA _ (List.getElem_mem _)] at hpj
    cases hpj
  omega

/-- C1: the claim says every input element except application-autoscaling
descriptors appears exactly once in the ordering output.  The code violates
this: an `ec2`/`transitgatewayattachment` descriptor is captured by the
networking bucket (get_and_order.py line 213) but the emit sequence (lines
253-261) never emits that type, so the descriptor is silently dropped —
even though `DELETE_FUNCTIONS["ec2"]["transitgatewayattachment"]` registers
a handler for it.  This theorem evaluates the code at the failing input. -/
theorem C1_transitgatewayattachment_dropped :
    orderResourcesForDeletion
      [{ service := "ec2", resource_type := "transitgatewayattachment",
         arn := some "arn:aws:ec2:us-west-2:123456789012:transit-gateway-attachment/tgw-attach-0a1b2c3d",
         resource_id := none, region := "us-west-2" }] = [] := by
  decide

/-- C6: every resource placed in the final network-container position of
the ordering output (`ec2`/`vpc`) is preceded by every resource of every
earlier bucket: a position holding a non-`vpc`-bucket resource is strictly
smaller than any position holding a `vpc`-bucket resource. -/
theorem C6_vpc_bucket_emitted_last (rs : List Resource) (i j : Nat)
    (hi : i < (orderResourcesForDeletion rs).length)
    (hj : j < (orderResourcesForDeletion rs).length)
    (hvi : isNetVpc ((orderResourcesForDeletion rs).get ⟨i, hi⟩) = false)
    (hvj : isNetVpc ((orderResourcesForDeletion rs).get ⟨j, hj⟩) = true) :
    i < j :=
  pos_lt_of_partition (orderResources_decomposition rs)
    (isNetVpc_false_on_init rs) (isNetVpc_true_on_vpcSegment rs) hi hj hvi hvj

/-- Witness for C6, on the spec's scenario: for input `[V, S, G]` with
`V = (ec2, vpc)`, `S = (ec2, subnet)`, `G = (ec2, securitygroup)` the output
is `[S, G, V]`, and both `S` (position 0) and `G` (position 1) come
strictly before `V` (position 2). -/
theorem C6_vpc_bucket_emitted_last_witness :
    (orderResourcesForDeletion
        [{ service := "ec2", resource_type := "vpc", arn := some "arn:V",
           resource_id := none, region := "us-west-2" },
         { service := "ec2", resource_type := "subnet", arn := some "arn:S",
           resource_id := none, region := "us-west-2" },
         { service := "ec2", resource_type := "securitygroup", arn := some "arn:G",
           resource_id := none, region := "us-west-2" }]).map Resource.resource_type
      = ["subnet", "securitygroup", "vpc"] ∧
    (0 : Nat) < 2 ∧ (1 : Nat) < 2 :=
  ⟨by decide,
   C6_vpc_bucket_emitted_last
     [{ service := "ec2", resource_type := "vpc", arn := some "arn:V",
        resource_id := none, region := "us-west-2" },
      { service := "ec2", resource_type := "subnet", arn := some "arn:S",
        resource_id := none, region := "us-west-2" },
      { service := "ec2", resource_type := "securitygroup", arn := some "arn:G",
        resource_id := none, region := "us-west-2" }]
     0 2 (by decide) (by decide) (by decide) (by decide),
   C6_vpc_bucket_emitted_last
     [{ service := "ec2", resource_type := "vpc", arn := some "arn:V",
        resource_id := none, region := "us-west-2" },
      { service := "ec2", resource_type := "subnet", arn := some "arn:S",
        resource_id := none, region := "us-west-2" },
      { service := "ec2", resource_type := "securitygroup", arn := some "arn:G",
        resource_id := none, region := "us-west-2" }]
     1 2 (by decide) (by decide) (by decide) (by decide)⟩

/-- C7: the ordering output is the concatenation, in the source's fixed emit
order, of fifteen `List.filter`s of the input: the networking bucket is
emitted as instance, then vpcendpoint, then natgateway, then subnet, then
eip, then internetgateway, then routetable, then securitygroup, then vpc
(`netSegment` in exactly that sequence), and since every segment — of every
bucket — is a `List.filter` of the input list, ties among resources assigned
to the same position preserve the input order. -/
theorem C7_fixed_internal_order_and_stable_ties (rs : List Resource) :
    orderResourcesForDeletion rs =
      rs.filter pNonOrdered ++ rs.filter pOther
      ++ rs.filter pAutoscaling ++ rs.filter pLoadBalancer
      ++ rs.filter pListenerRes ++ rs.filter pTargetGroup
      ++ netSegment rs "instance" ++ netSegment rs "vpcendpoint"
      ++ netSegment rs "natgateway" ++ netSegment rs "subnet"
      ++ netSegment rs "eip" ++ netSegment rs "internetgateway"
      ++ netSegment rs "routetable" ++ netSegment rs "securitygroup"
      ++ netSegment rs "vpc" :=
  orderResources_decomposition rs

/-- C2 counterexample: the claim says no exception from a registered handler
ever propagates out of `delete_resource`, but the dispatch boundary catches
only `botocore.exceptions.ClientError` (main_delete.py line 73).  A handler
for the registered pair (`s3`, `bucket`) that raises any other exception
class (here a `ValueError`) propagates it out of `delete_resource`. -/
theorem C2_handler_exception_propagates :
    (deleteResource (fun _ _ _ _ => .throws (.otherError "ValueError"))
        (fun _ => .ok false)
        { service := "s3", resource_type := "bucket",
          arn := some "arn:aws:s3:::tagged-bucket", resource_id := none,
          region := "us-east-1" }).2
      = .error (.otherError "ValueError") := rfl

/-- C2 amended: every `ClientError` raised by a registered handler is caught
at the dispatch boundary and converted into either `None` (descriptor
dropped) or the singleton re-enqueue list; only exceptions that are not
`ClientError` propagate out of `delete_resource`. -/
theorem C2_clienterror_caught_at_dispatch
    (handler : String → String → Option String → String → HandlerOutcome)
    (disable : Option String → Except Exc Bool) (r : Resource) (code : String)
    (hdist : r.resource_type ≠ "distribution")
    (hreg : registryHasEntry r.service r.resource_type = true)
    (hbeh : handler r.service r.resource_type (pyOr r.arn r.resource_id) r.region
      = .throws (.clientError code)) :
    (deleteResource handler disable r).2 = .ok none ∨
    (deleteResource handler disable r).2 = .ok (some [r]) := by
  obtain ⟨s, t, a, ri, reg⟩ := r
  simp only at hdist hreg hbeh
  have h1 : (t == "distribution") = false := by simpa using hdist
  simp only [deleteResource, h1, Bool.false_eq_true, if_false, hreg, if_true, hbeh]
  by_cases h2 : notFoundCodes.contains code = true
  · rw [if_pos h2]; left; rfl
  · rw [if_neg h2]
    by_cases h3 : retryableCodes.contains code = true
    · rw [if_pos h3]; right; rfl
    · rw [if_neg h3]; right; rfl

/-- Witness for the amended C2: a registered SQS queue handler raising a
`ClientError` with code `DependencyViolation` yields a normal return. -/
theorem C2_clienterror_caught_at_dispatch_witness :
    (deleteResource (fun _ _ _ _ => .throws (.clientError "DependencyViolation"))
        (fun _ => .ok false)
        { service := "sqs", resource_type := "queue",
          arn := some "arn:aws:sqs:us-east-1:123456789012:q1",
          resource_id := none, region := "us-east-1" }).2 = .ok none ∨
    (deleteResource (fun _ _ _ _ => .throws (.clientError "DependencyViolation"))
        (fun _ => .ok false)
        { service := "sqs", resource_type := "queue",
          arn := some "arn:aws:sqs:us-east-1:123456789012:q1",
          resource_id := none, region := "us-east-1" }).2
      = .ok (some [⟨"sqs", "queue",
          some "arn:aws:sqs:us-east-1:123456789012:q1",
          none, "us-east-1"⟩]) :=
  C2_clienterror_caught_at_dispatch
    (fun _ _ _ _ => .throws (.clientError "DependencyViolation"))
    (fun _ => .ok false)
    { service := "sqs", resource_type := "queue",
      arn := some "arn:aws:sqs:us-east-1:123456789012:q1",
      resource_id := none, region := "us-east-1" }
    "DependencyViolation" (by decide) (by decide) rfl

/-- C3: a resource of the async-teardown class (`resource_type`
`"distribution"`) dispatched while the distribution is Active
(`Status = "Deployed"` and `Enabled = true`) never reaches the delete call:
`disable_cloudfront_distribution` issues only the `get_distribution` and the
`update_distribution` call that sets `Enabled := false` (the transition
toward Disabling), reports `retry = True`, and `delete_resource` returns the
descriptor in a singleton list for re-enqueueing. -/
theorem C3_active_distribution_not_deleted_in_pass
    (handler : String → String → Option String → String → HandlerOutcome)
    (dist : CFDistribution) (del : CFDeleteOutcome) (r : Resource) (arn : String)
    (hstatus : dist.status = "Deployed") (henabled : dist.enabled = true)
    (hdist : r.resource_type = "distribution")
    (harn : pyOr r.arn r.resource_id = some arn) :
    disableCloudfrontDistribution dist del arn
      = ([CFAction.getDistribution (distributionId arn),
          CFAction.updateDistribution (distributionId arn) false], .ok true) ∧
    (deleteResource handler
        (fun a => (disableCloudfrontDistribution dist del (a.getD "")).2) r).2
      = .ok (some [r]) := by
  have hdis : disableCloudfrontDistribution dist del arn
      = ([CFAction.getDistribution (distributionId arn),
          CFAction.updateDistribution (distributionId arn) false], .ok true) := by
    simp [disableCloudfrontDistribution, hstatus, henabled]
  refine ⟨hdis, ?_⟩
  obtain ⟨s, t, a, ri, reg⟩ := r
  simp only at hdist harn
  subst hdist
  simp only [deleteResource, beq_self_eq_true, if_true, harn, Option.getD_some, hdis]

/-- Witness for C3: an Active CloudFront distribution is only disabled and
re-enqueued. -/
theorem C3_active_distribution_not_deleted_in_pass_witness :
    disableCloudfrontDistribution { status := "Deployed", enabled := true }
        CFDeleteOutcome.raiseNotDisabled
        "arn:aws:cloudfront::123456789012:distribution/E2EXAMPLE"
      = ([CFAction.getDistribution
            (distributionId "arn:aws:cloudfront::123456789012:distribution/E2EXAMPLE"),
          CFAction.updateDistribution
            (distributionId "arn:aws:cloudfront::123456789012:distribution/E2EXAMPLE")
            false], .ok true) ∧
    (deleteResource (fun _ _ _ _ => .returns [])
        (fun a =>
          (disableCloudfrontDistribution { status := "Deployed", enabled := true }
            CFDeleteOutcome.raiseNotDisabled (a.getD "")).2)
        { service := "cloudfront", resource_type := "distribution",
          arn := some "arn:aws:cloudfront::123456789012:distribution/E2EXAMPLE",
          resource_id := none, region := "us-east-1" }).2
      = .ok (some [⟨"cloudfront", "distribution",
          some "arn:aws:cloudfront::123456789012:distribution/E2EXAMPLE",
          none, "us-east-1"⟩]) :=
  C3_active_distribution_not_deleted_in_pass
    (fun _ _ _ _ => .returns [])
    { status := "Deployed", enabled := true }
    CFDeleteOutcome.raiseNotDisabled
    { service := "cloudfront", resource_type := "distribution",
      arn := some "arn:aws:cloudfront::123456789012:distribution/E2EXAMPLE",
      resource_id := none, region := "us-east-1" }
    "arn:aws:cloudfront::123456789012:distribution/E2EXAMPLE"
    rfl rfl rfl (by decide)

/-- C4: `delete_resource` classifies a handler's `ClientError` by its code:
a code in `notFoundCodes` (`NotFoundException`, `NoSuchEntity`,
`ResourceNotFoundException`) yields `None` — treated as success, dropped,
never retried; every other code — the four `retryableCodes` and every
unclassified code alike — yields the singleton list containing the same,
unmutated descriptor for re-enqueueing. -/
theorem C4_clienterror_classification
    (handler : String → String → Option String → String → HandlerOutcome)
    (disable : Option String → Except Exc Bool) (r : Resource) (code : String)
    (hdist : r.resource_type ≠ "distribution")
    (hreg : registryHasEntry r.service r.resource_type = true)
    (hbeh : handler r.service r.resource_type (pyOr r.arn r.resource_id) r.region
      = .throws (.clientError code)) :
    (notFoundCodes.contains code = true →
      (deleteResource handler disable r).2 = .ok none) ∧
    (notFoundCodes.contains code = false →
      (deleteResource handler disable r).2 = .ok (some [r])) := by
  obtain ⟨s, t, a, ri, reg⟩ := r
  simp only at hdist hreg hbeh
  have h1 : (t == "distribution") = false := by simpa using hdist
  simp only [deleteResource, h1, Bool.false_eq_true, if_false, hreg, if_true, hbeh]
  constructor
  · intro h2; rw [if_pos h2]
  · intro h2
    simp only [h2, Bool.false_eq_true, if_false]
    by_cases h3 : retryableCodes.contains code = true
    · rw [if_pos h3]
    · rw [if_neg h3]

/-- Witness for C4, exercising all three classes on registered pairs:
`NoSuchEntity` is dropped as already-gone; `DependencyViolation` (listed
retryable) and `SomethingUnexpected` (unclassified) both re-enqueue the
same descriptor. -/
theorem C4_clienterror_classification_witness :
    (deleteResource (fun _ _ _ _ => .throws (.clientError "NoSuchEntity"))
        (fun _ => .ok false)
        { service := "s3", resource_type := "bucket", arn := some "arn:b",
          resource_id := none, region := "us-east-1" }).2 = .ok none ∧
    (deleteResource (fun _ _ _ _ => .throws (.clientError "DependencyViolation"))
        (fun _ => .ok false)
        { service := "ec2", resource_type := "securitygroup", arn := some "arn:sg",
          resource_id := none, region := "us-west-2" }).2
      = .ok (some [⟨"ec2", "securitygroup", some "arn:sg", none, "us-west-2"⟩]) ∧
    (deleteResource (fun _ _ _ _ => .throws (.clientError "SomethingUnexpected"))
        (fun _ => .ok false)
        { service := "dynamodb", resource_type := "table", arn := some "arn:t",
          resource_id := none, region := "us-east-2" }).2
      = .ok (some [⟨"dynamodb", "table", some "arn:t", none, "us-east-2"⟩]) :=
  ⟨(C4_clienterror_classification
      (fun _ _ _ _ => .throws (.clientError "NoSuchEntity")) (fun _ => .ok false)
      { service := "s3", resource_type := "bucket", arn := some "arn:b",
        resource_id := none, region := "us-east-1" }
      "NoSuchEntity" (by decide) (by decide) rfl).1 (by decide),
   (C4_clienterror_classification
      (fun _ _ _ _ => .throws (.clientError "DependencyViolation")) (fun _ => .ok false)
      { service := "ec2", resource_type := "securitygroup", arn := some "arn:sg",
        resource_id := none, region := "us-west-2" }
      "DependencyViolation" (by decide) (by decide) rfl).2 (by decide),
   (C4_clienterror_classification
      (fun _ _ _ _ => .throws (.clientError "SomethingUnexpected")) (fun _ => .ok false)
      { service := "dynamodb", resource_type := "table", arn := some "arn:t",
        resource_id := none, region := "us-east-2" }
      "SomethingUnexpected" (by decide) (by decide) rfl).2 (by decide)⟩


lemma retryRound_const (f : Resource → Except Exc (Option (List Resource)))
    (hf : ∀ r, f r = .ok (some [r])) :
    ∀ cur acc, retryRound f cur acc = .ok (acc ++ cur) := by
  intro cur
  induction cur with
  | nil => intro acc; simp [retryRound]
  | cons r rest ih =>
      intro acc
      have hstep : retryRound f (r :: rest) acc = retryRound f rest (acc ++ [r]) := by
        rw [retryRound, hf r]
      rw [hstep, ih]
      simp

lemma retryAttempts_const (f : Nat → Resource → Except Exc (Option (List Resource)))
    (hf : ∀ n r, f n r = .ok (some [r])) (w : Nat) :
    ∀ rem rounds slept cur, cur ≠ [] →
      retryAttempts f w rem rounds slept cur
        = .ok (rounds + rem, slept + rem * w, cur) := by
  intro rem
  induction rem with
  | zero => intro rounds slept cur hcur; simp [retryAttempts]
  | succ n ih =>
      intro rounds slept cur hcur
      have hne : cur.isEmpty = false := by
        cases cur
        · exact absurd rfl hcur
        · rfl
      rw [retryAttempts, retryRound_const (f (rounds + 1)) (hf _) cur []]
      simp only [List.nil_append, hne, Bool.false_eq_true, if_false]
      rw [ih (rounds + 1) (slept + w) cur hcur]
      have e1 : rounds + 1 + n = rounds + (n + 1) := by omega
      have e2 : slept + w + n * w = slept + (n + 1) * w := by ring
      rw [e1, e2]

lemma retryAttempts_rounds_le (f : Nat → Resource → Except Exc (Option (List Resource)))
    (w : Nat) : ∀ rem rounds slept cur res,
    retryAttempts f w rem rounds slept cur = .ok res → res.1 ≤ rounds + rem := by
  intro rem
  induction rem with
  | zero =>
      intro rounds slept cur res h
      rw [retryAttempts] at h
      cases h
      simp
  | succ n ih =>
      intro rounds slept cur res h
      rw [retryAttempts] at h
      cases hr : retryRound (f (rounds + 1)) cur [] with
      | error e => rw [hr] at h; cases h
      | ok newFailed =>
          rw [hr] at h
          dsimp only at h
          by_cases hie : newFailed.isEmpty = true
          · rw [if_pos hie] at h
            cases h
            simp
          · rw [if_neg hie] at h
            have := ih (rounds + 1) (slept + w) newFailed res h
            omega

lemma retryFailedDeletions_rounds_le (cfOk : Resource → Bool)
    (g : Nat → Resource → Except Exc (Option (List Resource)))
    (failed : List Resource) (maxRetries waitTime : Nat)
    (res : Nat × Nat × List Resource)
    (h : retryFailedDeletions cfOk g failed maxRetries waitTime = .ok res) :
    res.1 ≤ maxRetries := by
  rw [retryFailedDeletions] at h
  by_cases hie : (failed.filter (fun r => !(r.resource_type == "distribution"))
      ++ (failed.filter (fun r => r.resource_type == "distribution")).filter
          (fun r => !(cfOk r))).isEmpty = true
  · rw [if_pos hie] at h
    cases h
    simp
  · rw [if_neg hie] at h
    simpa using retryAttempts_rounds_le g waitTime maxRetries 0 0 _ res h

/-- C5: `retry_failed_deletions` runs at most `max_retries` rounds over the
non-async (non-distribution) failure set; when every round's dispatch of a
descriptor yields retry-needed (`some [r]`), all `max_retries` rounds run,
`max_retries * wait_time` seconds are slept between rounds, the function
returns normally (`Except.ok`, never an uncaught exception), and a
descriptor occurring once in the input appears exactly once in the
permanently-failed report. -/
theorem C5_retry_exhaustion_partial_success (cfOk : Resource → Bool)
    (f : Nat → Resource → Except Exc (Option (List Resource)))
    (failed : List Resource) (d : Resource) (maxRetries waitTime : Nat)
    (hf : ∀ n r, f n r = .ok (some [r]))
    (hd : failed.count d = 1) (hdist : d.resource_type ≠ "distribution") :
    (∀ (g : Nat → Resource → Except Exc (Option (List Resource)))
      (res : Nat × Nat × List Resource),
      retryFailedDeletions cfOk g failed maxRetries waitTime = .ok res →
      res.1 ≤ maxRetries) ∧
    ∃ report : List Resource,
      retryFailedDeletions cfOk f failed maxRetries waitTime
        = .ok (maxRetries, maxRetries * waitTime, report)
      ∧ report.count d = 1 := by
  refine ⟨fun g res h =>
    retryFailedDeletions_rounds_le cfOk g failed maxRetries waitTime res h, ?_⟩
  have hpd : (fun r => !(r.resource_type == "distribution")) d = true := by
    simpa using hdist
  refine ⟨failed.filter (fun r => !(r.resource_type == "distribution"))
      ++ (failed.filter (fun r => r.resource_type == "distribution")).filter
          (fun r => !(cfOk r)), ?_, ?_⟩
  · have hc1 : (failed.filter (fun r => !(r.resource_type == "distribution"))).count d
        = 1 := by
      rw [@List.count_filter _ _ _ (fun r => !(r.resource_type == "distribution")) d
        failed hpd, hd]
    have hne : failed.filter (fun r => !(r.resource_type == "distribution"))
        ++ (failed.filter (fun r => r.resource_type == "distribution")).filter
            (fun r => !(cfOk r)) ≠ [] := by
      intro hnil
      rcases List.append_eq_nil.mp hnil with ⟨hl, -⟩
      rw [hl] at hc1
      simp at hc1
    have hieF : (failed.filter (fun r => !(r.resource_type == "distribution"))
        ++ (failed.filter (fun r => r.resource_type == "distribution")).filter
            (fun r => !(cfOk r))).isEmpty = false := by
      rcases h : (failed.filter (fun r => !(r.resource_type == "distribution"))
        ++ (failed.filter (fun r => r.resource_type == "distribution")).filter
            (fun r => !(cfOk r))) with _ | _
      · exact absurd h hne
      · rfl
    simp only [retryFailedDeletions, hieF, Bool.false_eq_true, if_false]
    rw [retryAttempts_const f hf waitTime maxRetries 0 0 _ hne]
    simp
  · rw [List.count_append,
      @List.count_filter _ _ _ (fun r => !(r.resource_type == "distribution")) d failed hpd,
      hd]
    have hnm : d ∉ (failed.filter (fun r => r.resource_type == "distribution")).filter
        (fun r => !(cfOk r)) := by
      intro hmem
      have := (List.mem_filter.mp (List.mem_filter.mp hmem).1).2
      simp at this
      exact hdist this
    rw [List.count_eq_zero.mpr hnm]

/-- Witness for C5: one SQS queue descriptor whose dispatch always asks for
a retry survives all 6 default rounds (60 seconds of sleeping) and appears
exactly once in the final report. -/
theorem C5_retry_exhaustion_partial_success_witness :
    ([(⟨"sqs", "queue", some "arn:q", none, "us-east-1"⟩ : Resource)].count
        (⟨"sqs", "queue", some "arn:q", none, "us-east-1"⟩ : Resource) = 1) ∧
    ∃ report : List Resource,
      retryFailedDeletions (fun _ => true) (fun _ r => .ok (some [r]))
          [⟨"sqs", "queue", some "arn:q", none, "us-east-1"⟩] 6 10
        = .ok (6, 60, report)
      ∧ report.count (⟨"sqs", "queue", some "arn:q", none, "us-east-1"⟩ : Resource) = 1 :=
  ⟨by decide,
   (C5_retry_exhaustion_partial_success (fun _ => true) (fun _ r => .ok (some [r]))
      [⟨"sqs", "queue", some "arn:q", none, "us-east-1"⟩]
      ⟨"sqs", "queue", some "arn:q", none, "us-east-1"⟩ 6 10
      (fun _ _ => rfl) (by decide) (by decide)).2⟩

/-- C8: for a descriptor whose (service, resource type) has no entry in the
`DELETE_FUNCTIONS` registry and whose type is not `"distribution"`,
`delete_resource` invokes no handler: its whole observable behaviour is the
single "must be deleted manually" log line and a `None` return, so the
descriptor is dropped, never re-enqueued, and no exception is raised. -/
theorem C8_unregistered_is_logged_and_dropped
    (handler : String → String → Option String → String → HandlerOutcome)
    (disable : Option String → Except Exc Bool) (r : Resource)
    (hdist : r.resource_type ≠ "distribution")
    (hreg : registryHasEntry r.service r.resource_type = false) :
    deleteResource handler disable r
      = ([Action.logManual r.service r.resource_type], .ok none) := by
  obtain ⟨s, t, a, ri, reg⟩ := r
  simp only at hdist hreg ⊢
  have h1 : (t == "distribution") = false := by simpa using hdist
  simp [deleteResource, h1, hreg]

/-- Witness for C8: the registry has no `iam`/`role` entry (it is commented
out in delete_resource_map.py), so the descriptor is logged and dropped. -/
theorem C8_unregistered_is_logged_and_dropped_witness :
    registryHasEntry "iam" "role" = false ∧
    deleteResource (fun _ _ _ _ => .returns []) (fun _ => .ok true)
        { service := "iam", resource_type := "role",
          arn := some "arn:aws:iam::123456789012:role/my-role",
          resource_id := none, region := "us-east-1" }
      = ([Action.logManual "iam" "role"], .ok none) :=
  ⟨by decide,
   C8_unregistered_is_logged_and_dropped (fun _ _ _ _ => .returns [])
     (fun _ => .ok true)
     { service := "iam", resource_type := "role",
       arn := some "arn:aws:iam::123456789012:role/my-role",
       resource_id := none, region := "us-east-1" }
     (by decide) (by decide)⟩

/-- C9: dispatch special-cases the async-teardown class on the resource type
alone: for every descriptor with `resource_type = "distribution"` —
whatever its `service` field and whatever the disable call's outcome — the
only action `delete_resource` takes is the CloudFront disable call; the
`DELETE_FUNCTIONS` lookup is bypassed and no registry handler is invoked. -/
theorem C9_distribution_bypasses_registry
    (handler : String → String → Option String → String → HandlerOutcome)
    (disable : Option String → Except Exc Bool) (r : Resource)
    (hdist : r.resource_type = "distribution") :
    (deleteResource handler disable r).1
      = [Action.disableCall (pyOr r.arn r.resource_id)] := by
  obtain ⟨s, t, a, ri, reg⟩ := r
  simp only at hdist
  subst hdist
  simp only [deleteResource, beq_self_eq_true, if_true]
  rcases disable (pyOr a ri) with e | b
  · rfl
  · cases b <;> rfl

/-- Witness for C9: a descriptor with service `s3` but type `distribution`
still goes to the disable path, not to the registered `s3` handler. -/
theorem C9_distribution_bypasses_registry_witness :
    (deleteResource (fun _ _ _ _ => .returns [])
        (fun _ => .ok true)
        { service := "s3", resource_type := "distribution",
          arn := some "arn:aws:cloudfront::123456789012:distribution/EX1",
          resource_id := none, region := "us-east-1" }).1
      = [Action.disableCall
          (pyOr (some "arn:aws:cloudfront::123456789012:distribution/EX1") none)] :=
  C9_distribution_bypasses_registry (fun _ _ _ _ => .returns []) (fun _ => .ok true)
    { service := "s3", resource_type := "distribution",
      arn := some "arn:aws:cloudfront::123456789012:distribution/EX1",
      resource_id := none, region := "us-east-1" }
    rfl

/-- C10: `delete_resource` never returns an empty list: whenever its result
is a normally-returned list, that list is non-empty — a handler returning an
empty (falsy) list is normalized to `None` by the `if resources:` check, and
every other list-producing path returns the singleton `[resource]`. -/
theorem C10_returned_list_nonempty
    (handler : String → String → Option String → String → HandlerOutcome)
    (disable : Option String → Except Exc Bool) (r : Resource) (l : List Resource)
    (h : (deleteResource handler disable r).2 = .ok (some l)) : l ≠ [] := by
  obtain ⟨s, t, a, ri, reg⟩ := r
  simp only [deleteResource] at h
  by_cases h1 : (t == "distribution") = true
  · simp only [h1, if_true] at h
    revert h
    rcases disable (pyOr a ri) with e | b
    · intro h; cases h
    · cases b
      · intro h; simp at h
      · intro h
        simp only [Except.ok.injEq, Option.some.injEq] at h
        subst h
        simp
  · simp only [h1, Bool.false_eq_true, if_false] at h
    by_cases h2 : registryHasEntry s t = true
    · simp only [h2, if_true] at h
      revert h
      rcases handler s t (pyOr a ri) reg with rs | e
      · by_cases h3 : rs.isEmpty = true
        · simp only [h3, if_true]
          intro h; simp at h
        · simp only [h3, Bool.false_eq_true, if_false]
          intro h
          simp only [Except.ok.injEq, Option.some.injEq] at h
          subst h
          intro hnil
          rw [hnil] at h3
          exact h3 rfl
      · rcases e with code | name
        · by_cases h4 : notFoundCodes.contains code = true
          · simp only [h4, if_true]
            intro h; simp at h
          · simp only [h4, Bool.false_eq_true, if_false]
            by_cases h5 : retryableCodes.contains code = true
            · simp only [h5, if_true]
              intro h
              simp only [Except.ok.injEq, Option.some.injEq] at h
              subst h; simp
            · simp only [h5, Bool.false_eq_true, if_false]
              intro h
              simp only [Except.ok.injEq, Option.some.injEq] at h
              subst h; simp
        · intro h; cases h
    · simp only [h2, Bool.false_eq_true, if_false] at h
      simp at h

/-- Witness for C10: a registered handler that reports a leftover
sub-resource produces a non-empty re-enqueue list. -/
theorem C10_returned_list_nonempty_witness :
    ([(⟨"apigatewayv2", "vpclink", some "arn:vl", none, "us-east-1"⟩ : Resource)]
      ≠ ([] : List Resource)) :=
  C10_returned_list_nonempty
    (fun _ _ _ _ => .returns [⟨"apigatewayv2", "vpclink", some "arn:vl", none, "us-east-1"⟩])
    (fun _ => .ok true)
    { service := "apigateway", resource_type := "restapi",
      arn := some "arn:api", resource_id := none, region := "us-east-1" }
    [⟨"apigatewayv2", "vpclink", some "arn:vl", none, "us-east-1"⟩]
    rfl

end AWSweepByTag
